import Mathlib

/-!
# Script Runner — verification of the execution/persistence core

Shallow embedding of the Script Runner application (`src/runner_app/`):
the JSON configuration store (`config.py`), the history bookkeeping,
script-kind detection and interpreter resolution, the shell-style argument
tokenizer the app calls (`shlex.split` in POSIX mode), the process output
adapter (`process.py`), and the Idle/Running run-controller state machine of
`ui/main_window.py` (`run_script` / `stop_script` / `_process_finished` /
`send_console_input`).

Python dictionaries holding parsed JSON are embedded as association lists of
`JVal`; machine-level details that the code leaves to the host (wall-clock
timestamps, the operating system environment, whether a file exists) are
explicit parameters of the embedded functions.
-/

set_option autoImplicit false

namespace ScriptRunner

/-- A parsed JSON value, as produced by Python's `json.load`.
Numbers are embedded as integers (the configuration data the program
stores never contains fractional numbers). Objects are association lists
with the parser's key order; `json.load` gives each object unique keys. -/
inductive JVal where
  | null : JVal
  | bool (b : Bool) : JVal
  | num (n : Int) : JVal
  | str (s : String) : JVal
  | arr (items : List JVal) : JVal
  | obj (fields : List (String × JVal)) : JVal

namespace JVal

/-- Python truthiness (`bool(x)`) of a JSON-shaped value:
`None`/`False`/`0`/`""`/`[]`/`{}` are falsy, everything else truthy. -/
def truthy : JVal → Bool
  | .null => false
  | .bool b => b
  | .num n => n != 0
  | .str s => s ≠ ""
  | .arr items => !items.isEmpty
  | .obj fields => !fields.isEmpty

mutual

/-- Python `==` between JSON-shaped values. Python compares `True == 1`
and `False == 0` across `bool`/`int`; values of otherwise different types
are unequal; same-typed values compare structurally (lists elementwise,
dicts — here kept in parser key order — fieldwise). -/
def pyEq : JVal → JVal → Bool
  | .null, .null => true
  | .bool b, .bool c => b = c
  | .num n, .num m => n = m
  | .bool b, .num m => (if b then (1 : Int) else 0) = m
  | .num n, .bool c => n = (if c then (1 : Int) else 0)
  | .str s, .str t => s = t
  | .arr xs, .arr ys => pyEqList xs ys
  | .obj xs, .obj ys => pyEqObj xs ys
  | _, _ => false

/-- Elementwise Python `==` on lists. -/
def pyEqList : List JVal → List JVal → Bool
  | [], [] => true
  | x :: xs, y :: ys => pyEq x y && pyEqList xs ys
  | _, _ => false

/-- Fieldwise Python `==` on parsed objects. -/
def pyEqObj : List (String × JVal) → List (String × JVal) → Bool
  | [], [] => true
  | (k, v) :: xs, (k2, v2) :: ys => (k = k2 : Bool) && pyEq v v2 && pyEqObj xs ys
  | _, _ => false

end

end JVal

/-- First-match association-list lookup (Python `dict[...]` access for the
unique-keyed dicts produced by `json.load`). -/
def alookup (k : String) : List (String × JVal) → Option JVal
  | [] => none
  | (k2, v) :: rest => if k2 = k then some v else alookup k rest

/-- Python `dict.get(k, default)`. -/
def dictGetD (fields : List (String × JVal)) (k : String) (dflt : JVal) : JVal :=
  (alookup k fields).getD dflt

/-- The keys of an association list. -/
def keysOf (d : List (String × JVal)) : List String := d.map (·.1)

/-- Python `base.update(upd)` on dicts, observed through the association
list: keys already in `base` keep their position and receive the value from
`upd` when present; keys of `upd` not in `base` are appended in `upd`'s
order. -/
def dictUpdate (base upd : List (String × JVal)) : List (String × JVal) :=
  base.map (fun kv => (kv.1, (alookup kv.1 upd).getD kv.2)) ++
    upd.filter (fun kv => ¬ (keysOf base).contains kv.1)

/-! ## `config.py` -/

/-- `DEFAULT_CONFIG` from `config.py`, as the JSON object it serializes to. -/
def DEFAULT_CONFIG : List (String × JVal) :=
  [("theme", .str "dark"),
   ("history", .arr []),
   ("external_console", .bool false),
   ("auto_run", .bool false),
   ("argument_suggestions", .arr []),
   ("interpreter_profiles", .arr []),
   ("active_profile", .null)]

/-- The config keys documented in the spec's external-interface section. -/
def documentedConfigKeys : List String :=
  ["theme", "history", "external_console", "auto_run", "argument_suggestions",
   "interpreter_profiles", "active_profile", "fallback_python"]

/-- Outcome of `open(CONFIG_PATH)` + `json.load` in `load_config`:
the file may be missing (`FileNotFoundError`), unreadable or unparsable
(any other exception raised while opening/reading/parsing), or yield a
parsed JSON value. -/
inductive ReadResult where
  | missing : ReadResult
  | unreadable (msg : String) : ReadResult
  | parsed (v : JVal) : ReadResult

/-- `load_config` from `config.py`: missing file or any read/parse
exception yields a copy of the defaults; otherwise the parsed data is
merged over a copy of the defaults via `dict.update`. A parsed top-level
value that is not a JSON object drives `dict.update`'s iterable protocol
outside the try-block (raising for most shapes); no theorem relies on that
branch and it is embedded as an error. -/
def load_config : ReadResult → Except String (List (String × JVal))
  | .missing => .ok DEFAULT_CONFIG
  | .unreadable _ => .ok DEFAULT_CONFIG
  | .parsed (.obj fields) => .ok (dictUpdate DEFAULT_CONFIG fields)
  | .parsed _ => .error "dict.update of a non-object"

/-- `save_config` from `config.py`, observed through what the next
`load_config` will read: `json.dump` of the in-memory dict followed by
`json.load` reproduces the same JSON value. A failed write is swallowed
(`except Exception: pass`), leaving the previous file contents in place;
that case is handled separately in the round-trip theorem. -/
def save_config (config : List (String × JVal)) : ReadResult :=
  .parsed (.obj config)

/-! ## History (`_normalize_history`, `_remember_history` in `ui/main_window.py`) -/

/-- One in-memory history entry: the dict
`{"path": …, "timestamp": …, "arguments": …}` built by
`_normalize_history` / `_remember_history`. The values are whatever JSON
values the stored dict carried (the code does not coerce them). -/
structure HEntry where
  path : JVal
  timestamp : JVal
  arguments : JVal

/-- First phase of `_normalize_history`: dict elements keep their
`path`/`timestamp`/`arguments` values (with `""` / a fresh timestamp `ts` /
`""` as `dict.get` defaults), bare strings become `{path: s, timestamp: ts,
arguments: ""}`, anything else is dropped. -/
def normalizeEntry (ts : String) : JVal → Option HEntry
  | .obj fields =>
      some ⟨dictGetD fields "path" (.str ""),
            dictGetD fields "timestamp" (.str ts),
            dictGetD fields "arguments" (.str "")⟩
  | .str s => some ⟨.str s, .str ts, .str ""⟩
  | _ => none

/-- `_normalize_history`: convert each dict/string element, then keep only
the entries whose `path` value is truthy (`if item["path"]`). `ts` stands
for the `_timestamp()` value generated during the load. -/
def normalize_history (ts : String) (history : List JVal) : List HEntry :=
  (history.filterMap (normalizeEntry ts)).filter (fun item => item.path.truthy)

/-- `_remember_history`: build the new entry from the chosen script path,
the current wall-clock timestamp and the argument line, drop every existing
entry whose `path` compares `==` to the path, insert the new entry at the
front and truncate to the first 40 entries. -/
def remember_history (path ts argText : String) (history : List HEntry) :
    List HEntry :=
  let entry : HEntry := ⟨.str path, .str ts, .str argText⟩
  (entry :: history.filter (fun item => !item.path.pyEq (.str path))).take 40

/-- Is the value a JSON string? (Used to state the entry-shape invariant.) -/
def isStrJ : JVal → Bool
  | .str _ => true
  | _ => false

/-- The invariant shape claimed for in-memory history entries: a non-empty
string `path` and string-valued `timestamp` and `arguments`. -/
def entryShapeOK (e : HEntry) : Bool :=
  (match e.path with
   | .str s => s ≠ ""
   | _ => false) && isStrJ e.timestamp && isStrJ e.arguments

/-- Is the raw JSON element a dict or a string (the two element kinds
`_normalize_history` keeps)? -/
def isDictOrStr : JVal → Bool
  | .obj _ => true
  | .str _ => true
  | _ => false

/-- A raw history element whose dict fields (when present) are strings —
the shape `save_config` itself ever writes. -/
def rawEntryWellFormed : JVal → Bool
  | .obj fields =>
      (match alookup "path" fields with
       | some v => isStrJ v
       | none => true) &&
      (match alookup "timestamp" fields with
       | some v => isStrJ v
       | none => true) &&
      (match alookup "arguments" fields with
       | some v => isStrJ v
       | none => true)
  | _ => true

/-! ## `shlex.split` (POSIX mode), as called by `run_script` -/

/-- Lexer mode of Python's `shlex` in POSIX mode with
`whitespace_split=True`: scanning plain text, inside a single- or
double-quoted section, or just after an escape character (outside or
inside double quotes). -/
inductive ShMode where
  | norm : ShMode
  | single : ShMode
  | double : ShMode
  | escNorm : ShMode
  | escDouble : ShMode

/-- Whitespace characters of `shlex` (`' \t\r\n'`). -/
def isShlexWS (c : Char) : Bool :=
  c = ' ' || c = '\t' || c = '\r' || c = '\n'

/-- The `shlex` POSIX state machine, one character per step. `cur` is the
current token (reversed), `hasTok` whether a token is in progress (so that
quoted empty strings still yield a token), `acc` the finished tokens
(reversed). Unterminated quotes and a trailing escape raise `ValueError`
with the messages used by `shlex.read_token`. -/
def shlexSteps : List Char → ShMode → List Char → Bool → List (List Char) →
    Except String (List (List Char))
  | [], .norm, cur, hasTok, acc =>
      .ok ((if hasTok then cur.reverse :: acc else acc).reverse)
  | [], .single, _, _, _ => .error "No closing quotation"
  | [], .double, _, _, _ => .error "No closing quotation"
  | [], .escNorm, _, _, _ => .error "No escaped character"
  | [], .escDouble, _, _, _ => .error "No escaped character"
  | c :: rest, .norm, cur, hasTok, acc =>
      if isShlexWS c then
        if hasTok then shlexSteps rest .norm [] false (cur.reverse :: acc)
        else shlexSteps rest .norm [] false acc
      else if c = '\'' then shlexSteps rest .single cur true acc
      else if c = '"' then shlexSteps rest .double cur true acc
      else if c = '\\' then shlexSteps rest .escNorm cur true acc
      else shlexSteps rest .norm (c :: cur) true acc
  | c :: rest, .single, cur, _, acc =>
      if c = '\'' then shlexSteps rest .norm cur true acc
      else shlexSteps rest .single (c :: cur) true acc
  | c :: rest, .double, cur, _, acc =>
      if c = '"' then shlexSteps rest .norm cur true acc
      else if c = '\\' then shlexSteps rest .escDouble cur true acc
      else shlexSteps rest .double (c :: cur) true acc
  | c :: rest, .escNorm, cur, _, acc => shlexSteps rest .norm (c :: cur) true acc
  | c :: rest, .escDouble, cur, _, acc =>
      if c = '"' || c = '\\' then shlexSteps rest .double (c :: cur) true acc
      else shlexSteps rest .double (c :: '\\' :: cur) true acc

/-- `shlex.split(s)` in POSIX mode (the tokenizer `run_script` uses when
`os.name != "nt"`). -/
def shlexSplit (s : String) : Except String (List String) :=
  (shlexSteps s.data .norm [] false []).map (·.map (String.mk ·))

/-- Characters `shlex.quote` treats as safe: the ASCII word characters
plus `@ % + = : , . /` and the hyphen (its `_find_unsafe` regular
expression finding nothing). -/
def shlexQuoteSafe (c : Char) : Bool :=
  c.isAlphanum || c = '_' || c = '@' || c = '%' || c = '+' || c = '=' ||
    c = ':' || c = ',' || c = '.' || c = '/' || c = '-'

/-- `shlex.quote`, used by `run_script` only to echo the resolved command
line into the console. -/
def shlexQuote (s : String) : String :=
  if s = "" then "''"
  else if s.data.all shlexQuoteSafe then s
  else "'" ++ String.join (s.data.map (fun c =>
    if c = '\'' then "'\"'\"'" else String.mk [c])) ++ "'"

/-! ## `process.py` — byte stream handling -/

/-- UTF-8 encoding of one character (`str.encode()` for one code point). -/
def utf8Char (c : Char) : List Nat :=
  let n := c.toNat
  if n < 0x80 then [n]
  else if n < 0x800 then [0xC0 + n / 64, 0x80 + n % 64]
  else if n < 0x10000 then
    [0xE0 + n / 4096, 0x80 + (n / 64) % 64, 0x80 + n % 64]
  else
    [0xF0 + n / 262144, 0x80 + (n / 4096) % 64, 0x80 + (n / 64) % 64,
     0x80 + n % 64]

/-- `text.encode()`: UTF-8 bytes of a string. -/
def utf8Bytes (s : String) : List Nat :=
  (s.data.map utf8Char).flatten

/-- Is `b` a UTF-8 continuation byte (`0x80–0xBF`)? -/
def isCont (b : Nat) : Bool := 0x80 ≤ b && b ≤ 0xBF

/-- The replacement character U+FFFD. -/
def replChar : Char := Char.ofNat 0xFFFD

/-- One step of UTF-8 decoding with `errors="replace"`: given the lead
byte `b` and the bytes after it, return the characters to emit and how
many continuation bytes were consumed after `b`. An invalid lead byte
yields U+FFFD consuming nothing further; a missing or out-of-range
continuation byte yields U+FFFD for the maximal invalid subpart read so
far and leaves the offending byte to be rescanned. The range checks on the
first continuation byte reject overlong forms, surrogates and code points
above U+10FFFF, as CPython's decoder does. -/
def decodeStep (b : Nat) (rest : List Nat) : List Char × Nat :=
  if b < 0x80 then ([Char.ofNat b], 0)
  else if 0xC2 ≤ b && b ≤ 0xDF then
    match rest with
    | b2 :: _ =>
      if isCont b2 then ([Char.ofNat ((b - 0xC0) * 64 + (b2 - 0x80))], 1)
      else ([replChar], 0)
    | [] => ([replChar], 0)
  else if 0xE0 ≤ b && b ≤ 0xEF then
    match rest with
    | b2 :: rest2 =>
      let lo := if b = 0xE0 then 0xA0 else 0x80
      let hi := if b = 0xED then 0x9F else 0xBF
      if lo ≤ b2 && b2 ≤ hi then
        match rest2 with
        | b3 :: _ =>
          if isCont b3 then
            ([Char.ofNat ((b - 0xE0) * 4096 + (b2 - 0x80) * 64 + (b3 - 0x80))], 2)
          else ([replChar], 1)
        | [] => ([replChar], 1)
      else ([replChar], 0)
    | [] => ([replChar], 0)
  else if 0xF0 ≤ b && b ≤ 0xF4 then
    match rest with
    | b2 :: rest2 =>
      let lo := if b = 0xF0 then 0x90 else 0x80
      let hi := if b = 0xF4 then 0x8F else 0xBF
      if lo ≤ b2 && b2 ≤ hi then
        match rest2 with
        | b3 :: rest3 =>
          if isCont b3 then
            match rest3 with
            | b4 :: _ =>
              if isCont b4 then
                ([Char.ofNat ((b - 0xF0) * 262144 + (b2 - 0x80) * 4096 +
                    (b3 - 0x80) * 64 + (b4 - 0x80))], 3)
              else ([replChar], 2)
            | [] => ([replChar], 2)
          else ([replChar], 1)
        | [] => ([replChar], 1)
      else ([replChar], 0)
    | [] => ([replChar], 0)
  else ([replChar], 0)

/-- `bytes.decode(errors="replace")`: repeatedly apply `decodeStep`. -/
def decodeReplace : List Nat → List Char
  | [] => []
  | b :: rest =>
      let s := decodeStep b rest
      s.1 ++ decodeReplace (rest.drop s.2)
  termination_by bs => bs.length
  decreasing_by simp [List.length_drop]; omega

/-- The line-boundary characters of Python's `str.splitlines`. -/
def isLineBreakChar (c : Char) : Bool :=
  c = '\n' || c = '\r' || c = Char.ofNat 0x0B || c = Char.ofNat 0x0C ||
    c = Char.ofNat 0x1C || c = Char.ofNat 0x1D || c = Char.ofNat 0x1E ||
    c = Char.ofNat 0x85 || c = Char.ofNat 0x2028 || c = Char.ofNat 0x2029

/-- `str.splitlines(keepends=True)`: split after every line boundary
(treating `"\r\n"` as a single boundary), keeping the boundary characters,
and keep a trailing segment with no boundary as a final element. `cur` is
the current segment, reversed. -/
def splitlinesKeepAux : List Char → List Char → List (List Char)
  | [], cur => if cur.isEmpty then [] else [cur.reverse]
  | '\r' :: '\n' :: rest, cur =>
      (cur.reverse ++ ['\r', '\n']) :: splitlinesKeepAux rest []
  | c :: rest, cur =>
      if isLineBreakChar c then
        (cur.reverse ++ [c]) :: splitlinesKeepAux rest []
      else splitlinesKeepAux rest (c :: cur)

/-- `text.splitlines(True)` on the decoded chunk. -/
def splitlinesKeep (cs : List Char) : List (List Char) :=
  splitlinesKeepAux cs []

/-- `ScriptProcess._handle_output` (`process.py`): decode the freshly read
bytes with `errors="replace"`, split the decoded text keeping line ends,
prefix every segment with the capture timestamp and emit the concatenation
as a single `output_ready` event. `stamp` stands for
`datetime.now().strftime("[%H:%M:%S] ")`. -/
def handle_output (stamp : String) (data : List Nat) : String :=
  String.join ((splitlinesKeep (decodeReplace data)).map
    (fun segment => stamp ++ String.mk segment))

/-- The state of the owned `QProcess` handle, as the embedding observes
it: whether the OS process is alive, and the byte payloads written to its
input channel. Modelled from Qt's documented `QProcess`/`QIODevice`
behaviour (the class is an external library): `write` appends to the
channel while the process runs and does nothing (returning `-1`, raising
nothing) when it does not. -/
structure ProcHandle where
  running : Bool
  stdinChan : List (List Nat)
  killed : Bool
  deriving DecidableEq, Repr

/-- A `QProcess` handle freshly constructed (not started). -/
def freshProc : ProcHandle := ⟨false, [], false⟩

/-- `QProcess.write(bytes)` under the model above. -/
def qprocessWrite (p : ProcHandle) (payload : List Nat) : ProcHandle :=
  if p.running then { p with stdinChan := p.stdinChan ++ [payload] } else p

/-- `ScriptProcess.terminate()` (`process.py`): `QProcess.kill()` — a hard
kill request; the handle stays in a running state until the OS delivers
the `finished` notification. -/
def scriptProcess_terminate (p : ProcHandle) : ProcHandle :=
  { p with killed := true }

/-- `ScriptProcess.write(text)` (`process.py`): encode the text and hand
it to `QProcess.write` — the wrapper adds nothing to the text. -/
def scriptProcess_write (p : ProcHandle) (text : String) : ProcHandle :=
  qprocessWrite p (utf8Bytes text)

/-! ## Script-kind detection (`_detect_interpreter`) -/

/-- Is `needle` a contiguous substring of `hay` (Python's `in` on `str`)? -/
def isPrefixCh : List Char → List Char → Bool
  | [], _ => true
  | _ :: _, [] => false
  | a :: as, b :: bs => a = b && isPrefixCh as bs

/-- Substring search over the character list. -/
def containsSubAux (needle : List Char) : List Char → Bool
  | [] => isPrefixCh needle []
  | c :: rest => isPrefixCh needle (c :: rest) || containsSubAux needle rest

/-- `needle in hay` for Python strings. -/
def containsSub (hay needle : String) : Bool :=
  containsSubAux needle.data hay.data

/-- ASCII lowercasing (`str.lower()` restricted to the ASCII range the
program's extension/hint strings use). -/
def lowerStr (s : String) : String :=
  String.mk (s.data.map Char.toLower)

/-- `os.path.basename` for forward-slash paths (the separator used on the
POSIX hosts this embedding models): the characters after the last
separator. -/
def basenameStr (p : String) : String :=
  String.mk ((p.data.reverse.takeWhile (· ≠ '/')).reverse)

/-- `os.path.dirname` for forward-slash paths: everything up to the last
separator, with trailing separators stripped unless the result is all
separators (so `dirname "/a"` is `"/"` and `dirname "a.py"` is `""`). -/
def dirnameStr (p : String) : String :=
  let headPart := (p.data.reverse.dropWhile (· ≠ '/')).reverse
  if headPart.isEmpty || headPart.all (· = '/') then String.mk headPart
  else String.mk ((headPart.reverse.dropWhile (· = '/')).reverse)

/-- `os.path.splitext(path)[1]`: the suffix of the basename starting at
its last dot, unless every character before that dot is itself a dot
(leading dots do not start an extension). -/
def extOf (path : String) : String :=
  let cs := (basenameStr path).data
  match cs.reverse.findIdx? (· = '.') with
  | none => ""
  | some k =>
    let i := cs.length - 1 - k
    if (cs.take i).all (· = '.') then "" else String.mk (cs.drop i)

/-- The fixed extension-to-kind table of `_detect_interpreter`. -/
def extKindTable : List (String × String) :=
  [(".py", "Python"), (".sh", "Bash"), (".ps1", "PowerShell"),
   (".js", "Node.js"), (".bat", "Bash")]

/-- `_detect_interpreter(path)` (`ui/main_window.py`): the lowered file
extension is looked up in the fixed table; on a miss the first line of the
file is read (`firstLine = none` models an `OSError`) and scanned for
interpreter hints — `"python"`, `"node"`, `"bash"`/`"sh"` as
case-sensitive substrings and `"powershell"` against the lowercased line —
yielding `none` when nothing matches. -/
def detect_interpreter (path : String) (firstLine : Option String) :
    Option String :=
  let ext := (lowerStr (extOf path))
  match extKindTable.lookup ext with
  | some kind => some kind
  | none =>
    match firstLine with
    | none => none
    | some head =>
      if containsSub head "python" then some "Python"
      else if containsSub head "node" then some "Node.js"
      else if containsSub head "bash" || containsSub head "sh" then some "Bash"
      else if containsSub (lowerStr head) "powershell" then some "PowerShell"
      else none

/-- Modelled from the spec's words for comparison with
`detect_interpreter` (claim C8): identical except that *all four* hint
matches are case-insensitive substring tests, as the spec describes. -/
def detect_interpreter_spec (path : String) (firstLine : Option String) :
    Option String :=
  let ext := (lowerStr (extOf path))
  match extKindTable.lookup ext with
  | some kind => some kind
  | none =>
    match firstLine with
    | none => none
    | some head =>
      if containsSub (lowerStr head) "python" then some "Python"
      else if containsSub (lowerStr head) "node" then some "Node.js"
      else if containsSub (lowerStr head) "bash" || containsSub (lowerStr head) "sh" then
        some "Bash"
      else if containsSub (lowerStr head) "powershell" then some "PowerShell"
      else none

/-! ## Interpreter resolution (`_resolve_interpreter`, `_python_exec`) -/

/-- An interpreter profile (`settings.py`): name, command and default
arguments. -/
structure InterpreterProfile where
  name : String
  command : String
  arguments : List String
  deriving DecidableEq, Repr

/-- The host facts `_python_exec` consults, in consultation order:
`os.environ.get("SCRIPT_RUNNER_PYTHON")`, `sys._base_executable` (with
`os.path.isfile`'s verdict on it), and `sys.executable`. -/
structure SysEnv where
  envOverride : Option String
  baseExec : String
  baseExecIsFile : Bool
  executable : String
  deriving DecidableEq, Repr

/-- Python truthiness of an optional string (`os.environ.get` /
`dict.get` result used in an `if`). -/
def optTruthy : Option String → Option String
  | some s => if s = "" then none else some s
  | none => none

/-- The configuration fields the run controller reads, shaped as the
in-memory `self.config` values they are. -/
structure WConfig where
  argumentSuggestions : List String
  fallbackPython : Option String
  externalConsole : Bool
  deriving DecidableEq, Repr

/-- `_python_exec`: the environment override, else the configured
`fallback_python`, else `sys._base_executable` when it names an existing
file, else `sys.executable` when its basename starts with `"python"`,
else the bare command `"python"` on `PATH`. -/
def python_exec (sysv : SysEnv) (cfg : WConfig) : String :=
  match optTruthy sysv.envOverride with
  | some e => e
  | none =>
    match optTruthy cfg.fallbackPython with
    | some f => f
    | none =>
      if sysv.baseExec ≠ "" && sysv.baseExecIsFile then sysv.baseExec
      else if isPrefixCh "python".data (lowerStr (basenameStr sysv.executable)).data then
        sysv.executable
      else "python"

/-- `_resolve_interpreter(name)`: the first profile whose name equals the
profile-box selection wins when its command is non-empty; else a located
per-project Python interpreter for Python scripts; else the per-kind
default table (with `_python_exec` supplying the Python entry). An
unknown kind falls back to `("python", [])`. -/
def resolve_interpreter (sysv : SysEnv) (cfg : WConfig)
    (profiles : List InterpreterProfile) (selectedProfile : String)
    (localPython : Option String) (name : String) : String × List String :=
  match (profiles.find? (fun p => p.name = selectedProfile)).bind
      (fun p => if p.command = "" then none else some (p.command, p.arguments)) with
  | some hit => hit
  | none =>
    if name = "Python" then
      match optTruthy localPython with
      | some lp => (lp, [])
      | none => (python_exec sysv cfg, [])
    else if name = "Bash" then ("bash", [])
    else if name = "PowerShell" then
      ("powershell", ["-ExecutionPolicy", "Bypass", "-File"])
    else if name = "Node.js" then ("node", [])
    else ("python", [])

/-! ## The run controller (`ScriptRunnerWindow`) -/

/-- `COMMON_ARGUMENTS` from `ui/main_window.py`. -/
def COMMON_ARGUMENTS : List String :=
  ["--help", "--verbose", "--quiet", "--log-level", "--config", "--dry-run",
   "--input", "--output", "--limit", "--env"]

/-- The mutable window state the run controller reads and writes: the
selected script, the two text fields, the console contents (as the list of
texts handed to `_append_output`; the `[HH:MM:SS]` display prefix added
for `stamp=True` appends depends on the wall clock and is abstracted
away), the argument-suggestion bank, the in-memory config, the profile and
interpreter selections, the located per-project interpreter, the owned
process handle, the user-stop flag, the four UI affordances and the log of
started (managed) and externally launched (fire-and-forget) processes. -/
structure AppState where
  scriptPath : Option String
  argText : String
  consoleText : String
  console : List String
  argumentBank : List String
  config : WConfig
  profiles : List InterpreterProfile
  selectedProfile : String
  interpreterName : String
  localPython : Option String
  proc : ProcHandle
  terminatedByUser : Bool
  runEnabled : Bool
  stopEnabled : Bool
  sendEnabled : Bool
  consoleEnabled : Bool
  started : List (String × List String × String)
  extLaunched : List (String × List String)
  deriving DecidableEq, Repr

/-- `_append_output`: one more text block in the console pane. -/
def appendConsole (st : AppState) (text : String) : AppState :=
  { st with console := st.console ++ [text] }

/-- The argument tokenization `run_script` performs:
`shlex.split(text, posix=os.name != "nt") if text else []`. The host's
tokenizer (`shlex.split` with the host-dependent `posix` flag) is the
parameter `tok`; an empty argument line never reaches it. -/
def tokenizeArgs (tok : String → Except String (List String))
    (argText : String) : Except String (List String) :=
  if argText = "" then .ok [] else tok argText

/-- The suggestion-bank update `run_script` performs: append each token
not yet in the bank, then store the last 60 non-built-in entries into
`config["argument_suggestions"]` (persisted via `save_config`, whose file
write does not affect the in-memory state). -/
def recordArguments (args : List String) (st : AppState) : AppState :=
  let bank := args.foldl
    (fun b a => if b.contains a then b else b ++ [a]) st.argumentBank
  let dynamic := bank.filter (fun item => !COMMON_ARGUMENTS.contains item)
  { st with argumentBank := bank,
            config := { st.config with
              argumentSuggestions := dynamic.drop (dynamic.length - 60) } }

/-- `_set_running_state`: flip the run/stop/send/input affordances; on the
transition to idle additionally clear the console input line, discard the
old process object and own a fresh (not running) one, and reset the
user-stop flag. -/
def set_running_state (running : Bool) (st : AppState) : AppState :=
  let st := { st with runEnabled := !running, stopEnabled := running,
                      consoleEnabled := running, sendEnabled := running }
  if running then st
  else { st with consoleText := "", proc := freshProc,
                 terminatedByUser := false }

/-- `run_script` (`ui/main_window.py`). `tok` is the host tokenizer;
`popenErr` is the outcome of `subprocess.Popen` in `_launch_external`
(`none` = spawned, `some msg` = the exception text). Rejections: a running
process, a missing script and a tokenization failure each append one
console message and return. Otherwise the new argument tokens are
recorded, the interpreter resolved, and the process either launched
detached (external console — no state transition) or started attached
with a cleared console, the echoed command line, the script's directory as
working directory, and a transition to Running. -/
def run_script (tok : String → Except String (List String))
    (popenErr : Option String) (sysv : SysEnv) (st : AppState) : AppState :=
  if st.proc.running then
    appendConsole st "> A script is already running. Stop it first."
  else
    match optTruthy st.scriptPath with
    | none => appendConsole st "> No script selected."
    | some script =>
      match tokenizeArgs tok st.argText with
      | .error e => appendConsole st ("> Argument parsing error: " ++ e)
      | .ok args =>
        let st := recordArguments args st
        let r := resolve_interpreter sysv st.config st.profiles
          st.selectedProfile st.localPython st.interpreterName
        let arguments := r.2 ++ script :: args
        if st.config.externalConsole then
          match popenErr with
          | none =>
            appendConsole
              { st with extLaunched := st.extLaunched ++ [(r.1, arguments)] }
              "> Script launched in a separate console."
          | some msg =>
            appendConsole st ("> Failed to launch external console: " ++ msg)
        else
          let preview :=
            String.intercalate " " ((r.1 :: arguments).map shlexQuote)
          let st := { st with console := [] }
          let st := appendConsole st ("> Running " ++ basenameStr script)
          let st := appendConsole st ("> " ++ preview)
          set_running_state true
            { st with proc := ⟨true, [], false⟩,
                      started := st.started ++
                        [(r.1, arguments, dirnameStr script)],
                      terminatedByUser := false }

/-- `stop_script`: reject with a message when nothing runs; otherwise
announce the stop, set the user-stop flag and hard-kill the process (the
Idle transition happens later, when the `finished` notification
arrives). -/
def stop_script (st : AppState) : AppState :=
  if !st.proc.running then
    appendConsole st "> There is no running script."
  else
    let st := appendConsole st "> Stopping script…"
    { st with terminatedByUser := true,
              proc := scriptProcess_terminate st.proc }

/-- The terminal message for a user-stopped run. -/
def stoppedMsg (exitCode : Int) : String :=
  "> Script stopped by user (exit code " ++ toString exitCode ++ ")."

/-- The terminal message for a crashed run. -/
def crashedMsg (exitCode : Int) : String :=
  "> Script crashed with exit code " ++ toString exitCode ++ "."

/-- The terminal message for a normally finished run. -/
def finishedMsg (exitCode : Int) : String :=
  "> Script finished with exit code " ++ toString exitCode ++ "."

/-- `_process_finished(exit_code, status)`: pick the terminal message off
`(userStoppedFlag, exitStatus)` — `crashed` models
`status == QProcess.Crashed` — append it and transition to Idle. -/
def process_finished (exitCode : Int) (crashed : Bool) (st : AppState) :
    AppState :=
  let msg :=
    if st.terminatedByUser then stoppedMsg exitCode
    else if crashed then crashedMsg exitCode
    else finishedMsg exitCode
  set_running_state false (appendConsole st msg)

/-- `_handle_process_error`: report the launch/runtime error and reset to
Idle. -/
def handle_process_error (message : String) (st : AppState) : AppState :=
  set_running_state false (appendConsole st ("> Process error: " ++ message))

/-- `send_console_input`: with no running process, only echo a non-empty
typed line and clear the field — no write is attempted. With a running
process, echo the line, forward `text + "\n"` through
`ScriptProcess.write`, record a new non-empty token into the suggestion
bank, and clear the field. -/
def send_console_input (st : AppState) : AppState :=
  let text := st.consoleText
  if !st.proc.running then
    let st := if text ≠ "" then appendConsole st ("$ " ++ text) else st
    { st with consoleText := "" }
  else
    let st := appendConsole st (if text ≠ "" then "$ " ++ text else "$")
    let st := { st with proc := scriptProcess_write st.proc (text ++ "\n") }
    let st :=
      if text ≠ "" && !st.argumentBank.contains text then
        let bank := st.argumentBank ++ [text]
        let dynamic := bank.filter (fun item => !COMMON_ARGUMENTS.contains item)
        { st with argumentBank := bank,
                  config := { st.config with
                    argumentSuggestions := dynamic.drop (dynamic.length - 60) } }
      else st
    { st with consoleText := "" }

/-! ## Helper lemmas -/

/-- Splitting a history list's length into the entries kept and the
entries removed by `_remember_history`'s path filter. -/
theorem hist_filter_length (path : String) (h : List HEntry) :
    (h.filter (fun item => !item.path.pyEq (.str path))).length +
      h.countP (fun e => e.path.pyEq (.str path)) = h.length := by
  induction h with
  | nil => simp
  | cons a l ih =>
    by_cases hpa : a.path.pyEq (.str path) <;>
      simp [List.countP_cons, List.filter_cons, hpa] <;> omega

/-- After the path filter, no surviving entry's path compares equal to
the inserted path. -/
theorem hist_filter_countP_zero (path : String) (h : List HEntry) :
    (h.filter (fun item => !item.path.pyEq (.str path))).countP
      (fun e => e.path.pyEq (.str path)) = 0 := by
  rw [List.countP_filter]
  simp

/-- `take 40` on a cons cell, with the literal bound the history cap
uses. -/
theorem take40_cons {α : Type} (e : α) (l : List α) :
    (e :: l).take 40 = e :: l.take 39 := rfl

/-- Merging the defaults into a dict that was itself produced by merging
the defaults changes nothing: every default key is already present (in the
same position, with the merged value), and the extra keys are exactly the
non-default keys of the original update. -/
theorem dictUpdate_default_idem (u : List (String × JVal)) :
    dictUpdate DEFAULT_CONFIG (dictUpdate DEFAULT_CONFIG u) =
      dictUpdate DEFAULT_CONFIG u := by
  simp [dictUpdate, DEFAULT_CONFIG, keysOf, alookup, List.filter_filter]

/-! ## Claim theorems -/

/-- **C7.** `load_config` returns the built-in defaults whenever the
config file is missing (`FileNotFoundError`) or opening/reading/parsing it
raises for any other reason — malformed JSON included; the embedded
function is total on those outcomes (`.ok` in `Except`), so no parse
error reaches the caller. -/
theorem load_config_failure_defaults :
    load_config .missing = .ok DEFAULT_CONFIG ∧
    ∀ msg, load_config (.unreadable msg) = .ok DEFAULT_CONFIG :=
  ⟨rfl, fun _ => rfl⟩

/-- **C6.** For every stored config object using only the documented keys,
loading, saving the loaded value and loading again reproduces the first
loaded value. (When the `save_config` write fails the file is untouched
and the second load trivially repeats the first, so the successful write
is the interesting case embedded here.) -/
theorem config_save_load_roundtrip (fields : List (String × JVal))
    (hdoc : ∀ kv ∈ fields, kv.1 ∈ documentedConfigKeys) :
    ∃ first, load_config (.parsed (.obj fields)) = .ok first ∧
      load_config (save_config first) = .ok first := by
  refine ⟨dictUpdate DEFAULT_CONFIG fields, rfl, ?_⟩
  show Except.ok (dictUpdate DEFAULT_CONFIG (dictUpdate DEFAULT_CONFIG fields)) = _
  rw [dictUpdate_default_idem]

/-- Witness for C6 at a concrete two-key documented config. -/
theorem config_save_load_roundtrip_witness :
    ∃ first,
      load_config (.parsed (.obj [("theme", JVal.str "light"),
        ("fallback_python", JVal.str "/usr/bin/python3")])) = .ok first ∧
      load_config (save_config first) = .ok first :=
  config_save_load_roundtrip
    [("theme", JVal.str "light"), ("fallback_python", JVal.str "/usr/bin/python3")]
    (by decide)

/-- **C5, counterexample.** The claim quantifies over *every* history
list, but `_normalize_history` neither deduplicates nor caps, so lists
with a repeated path are reachable from a stored config; re-inserting that
path removes *both* copies and adds one, shrinking the list — the claimed
"length is unchanged" fails. -/
theorem remember_history_dup_counterexample :
    ([(⟨.str "a", .str "t1", .str ""⟩ : HEntry),
      ⟨.str "a", .str "t2", .str ""⟩].countP
        (fun e => e.path.pyEq (.str "a"))) = 2 ∧
    (remember_history "a" "t3" ""
      [⟨.str "a", .str "t1", .str ""⟩, ⟨.str "a", .str "t2", .str ""⟩]).length = 1 :=
  ⟨by decide, by decide⟩

/-- **C5, amended.** For every history list and inserted path P: the
result never exceeds 40 entries, starts with the fresh entry for P, and
contains exactly one entry whose path compares equal to P. When the list
satisfies the app-maintained invariant — at most 40 entries, and (if P is
present) exactly one entry for P — the length is unchanged; when P is
absent the length becomes `min (|h| + 1) 40`, i.e. grows by one unless the
list was at the cap. -/
theorem remember_history_spec (path ts argText : String) (h : List HEntry) :
    (remember_history path ts argText h).length ≤ 40 ∧
    (remember_history path ts argText h).head? =
      some ⟨.str path, .str ts, .str argText⟩ ∧
    (remember_history path ts argText h).countP
      (fun e => e.path.pyEq (.str path)) = 1 ∧
    (h.length ≤ 40 → h.countP (fun e => e.path.pyEq (.str path)) = 1 →
      (remember_history path ts argText h).length = h.length) ∧
    (h.countP (fun e => e.path.pyEq (.str path)) = 0 →
      (remember_history path ts argText h).length = min (h.length + 1) 40) := by
  refine ⟨?_, ?_, ?_, ?_, ?_⟩
  · simp [remember_history, List.length_take]
  · rw [remember_history, take40_cons]
    rfl
  · rw [remember_history, take40_cons]
    have hle := (List.take_sublist 39
        (h.filter (fun item => !item.path.pyEq (.str path)))).countP_le
      (fun e => e.path.pyEq (.str path))
    have hflt0 := hist_filter_countP_zero path h
    simp only [List.countP_cons, JVal.pyEq]
    simp only [decide_True, if_true]
    omega
  · intro hlen hone
    have hsum := hist_filter_length path h
    rw [remember_history, List.length_take]
    simp only [List.length_cons]
    omega
  · intro hzero
    have hall : ∀ e ∈ h, ¬ e.path.pyEq (.str path) = true :=
      List.countP_eq_zero.mp hzero
    have hfeq : h.filter (fun item => !item.path.pyEq (.str path)) = h := by
      apply List.filter_eq_self.mpr
      intro a ha
      simp [hall a ha]
    rw [remember_history, List.length_take, hfeq]
    simp [Nat.min_comm]

/-- Witness for C5 on a one-entry history containing the inserted path. -/
theorem remember_history_spec_witness :
    (remember_history "a" "t2" "--x"
      [⟨.str "a", .str "t1", .str ""⟩]).length =
      ([(⟨.str "a", .str "t1", .str ""⟩ : HEntry)]).length :=
  (remember_history_spec "a" "t2" "--x"
    [⟨.str "a", .str "t1", .str ""⟩]).2.2.2.1 (by decide) (by decide)

/-- **C10, counterexample.** Normalization does not coerce dict values:
a stored entry `{"path": 5}` has a truthy, *non-string* path, survives
`_normalize_history` untouched, and so violates the claimed "non-empty
path string" shape of every in-memory entry. -/
theorem normalize_history_nonstring_counterexample :
    normalize_history "t" [.obj [("path", .num 5)]] =
      [⟨.num 5, .str "t", .str ""⟩] ∧
    entryShapeOK ⟨.num 5, .str "t", .str ""⟩ = false :=
  ⟨rfl, rfl⟩

/-- **C10, amended.** Normalization drops elements that are neither dicts
nor strings, and keeps only entries whose path value is *truthy* (for
string paths this is exactly "non-empty", but a truthy non-string path is
kept as-is). When the stored dict fields are strings — the only shape the
application itself writes — every normalized entry has a non-empty string
path and string-valued timestamp and arguments, and `_remember_history`
with a non-empty path preserves that shape. -/
theorem history_shape_invariant (ts : String) (raw : List JVal) :
    (∀ v, isDictOrStr v = false →
      normalize_history ts (v :: raw) = normalize_history ts raw) ∧
    (∀ e ∈ normalize_history ts raw, e.path.truthy = true) ∧
    ((∀ v ∈ raw, rawEntryWellFormed v = true) →
      ∀ e ∈ normalize_history ts raw, entryShapeOK e = true) ∧
    (∀ (path ts2 argText : String) (h : List HEntry), path ≠ "" →
      (∀ e ∈ h, entryShapeOK e = true) →
      ∀ e ∈ remember_history path ts2 argText h, entryShapeOK e = true) := by
  refine ⟨?_, ?_, ?_, ?_⟩
  · intro v hv
    cases v <;> simp_all [normalize_history, normalizeEntry, isDictOrStr]
  · intro e he
    exact (List.mem_filter.mp he).2
  · intro hwf e he
    obtain ⟨hmem, htruthy⟩ := List.mem_filter.mp he
    obtain ⟨v, hv, hsome⟩ := List.mem_filterMap.mp hmem
    cases v with
    | obj fields =>
      have hwfv := hwf _ hv
      simp only [normalizeEntry, Option.some.injEq] at hsome
      subst hsome
      simp only [rawEntryWellFormed, Bool.and_eq_true] at hwfv
      obtain ⟨⟨hpath, htime⟩, hargs⟩ := hwfv
      simp only [entryShapeOK, Bool.and_eq_true]
      refine ⟨⟨?_, ?_⟩, ?_⟩
      · simp only [dictGetD] at htruthy ⊢
        cases halo : alookup "path" fields with
        | none => simp [halo, JVal.truthy] at htruthy
        | some v => cases v <;> simp_all [isStrJ, JVal.truthy]
      · simp only [dictGetD] at htime ⊢
        cases halo : alookup "timestamp" fields with
        | none => simp [isStrJ]
        | some v => cases v <;> simp_all [isStrJ]
      · simp only [dictGetD] at hargs ⊢
        cases halo : alookup "arguments" fields with
        | none => simp [isStrJ]
        | some v => cases v <;> simp_all [isStrJ]
    | str s =>
      simp only [normalizeEntry, Option.some.injEq] at hsome
      subst hsome
      simp only [JVal.truthy] at htruthy
      simp [entryShapeOK, isStrJ, htruthy]
    | null => simp [normalizeEntry] at hsome
    | bool b => simp [normalizeEntry] at hsome
    | num n => simp [normalizeEntry] at hsome
    | arr a => simp [normalizeEntry] at hsome
  · intro path ts2 argText h hpath hshape e he
    have hmem := List.take_subset 40 _ he
    rcases List.mem_cons.mp hmem with heq | hemem
    · subst heq
      simp [entryShapeOK, isStrJ, hpath]
    · exact hshape e (List.mem_of_mem_filter hemem)

/-- Witness for C10: a non-dict, non-string element (here a number) is
silently dropped by normalization. -/
theorem history_shape_invariant_witness :
    normalize_history "t" (JVal.num 3 :: [JVal.str "a.py"]) =
      normalize_history "t" [JVal.str "a.py"] :=
  (history_shape_invariant "t" [JVal.str "a.py"]).1 (JVal.num 3) (by decide)

/-- **C8, counterexample.** The code matches the `"python"`, `"node"`,
`"bash"`/`"sh"` hints *case-sensitively* (only `"powershell"` is checked
against the lowercased line), so an upper-case shebang that the claimed
case-insensitive match would classify as Python yields no kind at all. -/
theorem detect_interpreter_case_counterexample :
    detect_interpreter "script" (some "#!PYTHON") = none ∧
    detect_interpreter_spec "script" (some "#!PYTHON") = some "Python" := by
  constructor <;> decide

/-- **C8, amended.** Detection is extension-first through the fixed table
(never reading the file); on an unknown extension the first line is
scanned, in order, for `"python"`, `"node"`, `"bash"`/`"sh"` as
*case-sensitive* substrings and finally `"powershell"` case-insensitively,
yielding no kind when nothing matches or the file cannot be read. A
`script.py` with an unrecognized shebang is Python by extension; a file
with no recognized extension whose first line contains `"bash"` is
Bash. -/
theorem detect_interpreter_amended (path head : String) :
    (∀ kind, extKindTable.lookup (lowerStr (extOf path)) = some kind →
      ∀ firstLine, detect_interpreter path firstLine = some kind) ∧
    (extKindTable.lookup (lowerStr (extOf path)) = none →
      detect_interpreter path none = none) ∧
    (extKindTable.lookup (lowerStr (extOf path)) = none →
      containsSub head "python" = true →
      detect_interpreter path (some head) = some "Python") ∧
    (extKindTable.lookup (lowerStr (extOf path)) = none →
      containsSub head "python" = false → containsSub head "node" = true →
      detect_interpreter path (some head) = some "Node.js") ∧
    (extKindTable.lookup (lowerStr (extOf path)) = none →
      containsSub head "python" = false → containsSub head "node" = false →
      (containsSub head "bash" || containsSub head "sh") = true →
      detect_interpreter path (some head) = some "Bash") ∧
    (extKindTable.lookup (lowerStr (extOf path)) = none →
      containsSub head "python" = false → containsSub head "node" = false →
      containsSub head "bash" = false → containsSub head "sh" = false →
      containsSub (lowerStr head) "powershell" = true →
      detect_interpreter path (some head) = some "PowerShell") ∧
    (extKindTable.lookup (lowerStr (extOf path)) = none →
      containsSub head "python" = false → containsSub head "node" = false →
      containsSub head "bash" = false → containsSub head "sh" = false →
      containsSub (lowerStr head) "powershell" = false →
      detect_interpreter path (some head) = none) ∧
    detect_interpreter "script.py" (some "#!weird interpreter") = some "Python" ∧
    detect_interpreter "script.txt" (some "#!/bin/bash") = some "Bash" := by
  refine ⟨?_, ?_, ?_, ?_, ?_, ?_, ?_, by decide, by decide⟩
  · intro kind hk fl
    simp [detect_interpreter, hk]
  · intro hlk
    simp [detect_interpreter, hlk]
  · intro hlk h1
    simp [detect_interpreter, hlk, h1]
  · intro hlk h1 h2
    simp [detect_interpreter, hlk, h1, h2]
  · intro hlk h1 h2 h3
    simp [detect_interpreter, hlk, h1, h2, h3]
  · intro hlk h1 h2 h3 h4 h5
    simp [detect_interpreter, hlk, h1, h2, h3, h4, h5]
  · intro hlk h1 h2 h3 h4 h5
    simp [detect_interpreter, hlk, h1, h2, h3, h4, h5]

/-- Witness for C8 on a case-sensitively matching lower-case shebang. -/
theorem detect_interpreter_amended_witness :
    detect_interpreter "tool" (some "#!/usr/bin/env python3") = some "Python" :=
  (detect_interpreter_amended "tool" "#!/usr/bin/env python3").2.2.1
    (by decide) (by decide)

set_option maxHeartbeats 1000000 in
/-- Concatenating the keepends-split segments reproduces the split text
exactly: no character is dropped, duplicated or held back. -/
theorem splitlinesKeepAux_flatten (cs cur : List Char) :
    (splitlinesKeepAux cs cur).flatten = cur.reverse ++ cs := by
  induction cs, cur using splitlinesKeepAux.induct <;>
    simp_all [splitlinesKeepAux]

/-- Decoding a pure-ASCII chunk maps each byte to its character. -/
theorem decodeReplace_ascii (bytes : List Nat) (h : ∀ b ∈ bytes, b < 0x80) :
    decodeReplace bytes = bytes.map Char.ofNat := by
  induction bytes with
  | nil => simp [decodeReplace.eq_def]
  | cons b rest ih =>
    have hb : b < 0x80 := h b (by simp)
    have ih2 := ih (fun x hx => h x (by simp [hx]))
    rw [decodeReplace.eq_def]
    simp [decodeStep, hb, ih2]

/-- **C4.** The output handler preserves the byte stream's line structure
exactly: flattening the keepends-split of the decoded chunk gives back the
decoded chunk (so a trailing partial line is emitted, not held back);
ASCII bytes decode one-to-one while an undecodable byte becomes U+FFFD;
and the chunk `b"line1\nline2"` is emitted as one event consisting of two
timestamped display lines, the second without a trailing newline. -/
theorem handle_output_spec (stamp : String) (bytes : List Nat) :
    (splitlinesKeep (decodeReplace bytes)).flatten = decodeReplace bytes ∧
    ((∀ b ∈ bytes, b < 0x80) → decodeReplace bytes = bytes.map Char.ofNat) ∧
    decodeReplace [0xFF, 0x41] = [replChar, 'A'] ∧
    handle_output stamp (utf8Bytes "line1\nline2") =
      stamp ++ "line1\n" ++ (stamp ++ "line2") := by
  refine ⟨splitlinesKeepAux_flatten _ [], decodeReplace_ascii bytes, ?_, ?_⟩
  · simp [decodeReplace.eq_def, decodeStep, isCont]
  · have hdec : decodeReplace (utf8Bytes "line1\nline2") = "line1\nline2".data := by
      rw [decodeReplace_ascii _ (by decide)]
      decide
    have hsplit : splitlinesKeep ("line1\nline2".data) =
        ["line1\n".data, "line2".data] := by decide
    rw [handle_output, hdec, hsplit]
    rfl

/-- Witness for C4: ASCII decoding applied at a concrete chunk. -/
theorem handle_output_spec_witness :
    decodeReplace (utf8Bytes "ok") = (utf8Bytes "ok").map Char.ofNat :=
  (handle_output_spec "" (utf8Bytes "ok")).2.1 (by decide)

/-- **C9, counterexample.** `ScriptProcess.write(text)` forwards exactly
`text.encode()` — it appends no newline itself (the newline is added by
its caller `send_console_input`), so the claimed "forwards text followed
by a newline" fails for `write`. -/
theorem scriptProcess_write_no_newline_counterexample :
    (scriptProcess_write ⟨true, [], false⟩ "ping").stdinChan =
      [utf8Bytes "ping"] ∧
    utf8Bytes "ping" ≠ utf8Bytes ("ping" ++ "\n") := by
  constructor <;> decide

/-- **C9, amended.** `write(text)` forwards exactly the encoded text when
the process is alive and leaves the handle untouched (a total no-op, so
nothing can raise) when it is not; the console path `send_console_input`
is the place that appends the newline before calling `write`, and while
Idle it performs no write at all — it only echoes a non-empty typed line
and clears the input field. -/
theorem write_console_input_spec (p : ProcHandle) (text : String)
    (st : AppState) :
    (p.running = true → scriptProcess_write p text =
      { p with stdinChan := p.stdinChan ++ [utf8Bytes text] }) ∧
    (p.running = false → scriptProcess_write p text = p) ∧
    (st.proc.running = false →
      (send_console_input st).proc = st.proc ∧
      (send_console_input st).consoleText = "" ∧
      (st.consoleText ≠ "" →
        (send_console_input st).console =
          st.console ++ ["$ " ++ st.consoleText])) ∧
    (st.proc.running = true →
      (send_console_input st).proc.stdinChan =
        st.proc.stdinChan ++ [utf8Bytes (st.consoleText ++ "\n")]) := by
  refine ⟨?_, ?_, ?_, ?_⟩
  · intro hr
    simp [scriptProcess_write, qprocessWrite, hr]
  · intro hr
    simp [scriptProcess_write, qprocessWrite, hr]
  · intro hr
    refine ⟨?_, ?_, ?_⟩
    · by_cases ht : st.consoleText = "" <;>
        simp [send_console_input, hr, ht, appendConsole]
    · by_cases ht : st.consoleText = "" <;>
        simp [send_console_input, hr, ht, appendConsole]
    · intro ht
      simp [send_console_input, hr, ht, appendConsole]
  · intro hr
    by_cases hb : st.consoleText ≠ "" ∧ !st.argumentBank.contains st.consoleText <;>
      by_cases ht : st.consoleText = "" <;>
        simp_all [send_console_input, hr, appendConsole, scriptProcess_write,
          qprocessWrite]

/-- Witness for C9 on a concrete running handle and idle window state. -/
theorem write_console_input_spec_witness :
    scriptProcess_write ⟨true, [], false⟩ "y" =
      { running := true, stdinChan := [utf8Bytes "y"], killed := false } :=
  (write_console_input_spec ⟨true, [], false⟩ "y"
    { scriptPath := none, argText := "", consoleText := "", console := [],
      argumentBank := [], config := ⟨[], none, false⟩, profiles := [],
      selectedProfile := "Default", interpreterName := "Python",
      localPython := none, proc := ⟨false, [], false⟩,
      terminatedByUser := false, runEnabled := true, stopEnabled := false,
      sendEnabled := false, consoleEnabled := false, started := [],
      extLaunched := [] }).1 rfl

/-- **C1.** In every application state, `run_script` rejects — appending
exactly one console message and changing *nothing else* (no process
started, running/idle state, suggestion bank and config untouched) — when
a process is already running, when no script is selected, and when the
argument line fails shell tokenization (reported once, before any
process start). -/
theorem run_script_rejections (tok : String → Except String (List String))
    (popenErr : Option String) (sysv : SysEnv) (st : AppState) :
    (st.proc.running = true →
      run_script tok popenErr sysv st =
        { st with console := st.console ++
            ["> A script is already running. Stop it first."] }) ∧
    (st.proc.running = false → optTruthy st.scriptPath = none →
      run_script tok popenErr sysv st =
        { st with console := st.console ++ ["> No script selected."] }) ∧
    (∀ e s, st.proc.running = false → optTruthy st.scriptPath = some s →
      tokenizeArgs tok st.argText = .error e →
      run_script tok popenErr sysv st =
        { st with console := st.console ++
            ["> Argument parsing error: " ++ e] }) := by
  refine ⟨?_, ?_, ?_⟩
  · intro hr
    simp [run_script, hr, appendConsole]
  · intro hr hs
    simp [run_script, hr, hs, appendConsole]
  · intro e s hr hs htok
    simp [run_script, hr, hs, htok, appendConsole]

/-- Witness for C1: an unterminated quote in the argument line aborts the
run with the `shlex` error message, leaving the state otherwise
unchanged. -/
theorem run_script_rejections_witness :
    run_script shlexSplit none ⟨none, "", false, "/usr/bin/app"⟩
      { scriptPath := some "a.py", argText := "\"", consoleText := "",
        console := [], argumentBank := [], config := ⟨[], none, false⟩,
        profiles := [], selectedProfile := "Default",
        interpreterName := "Python", localPython := none,
        proc := ⟨false, [], false⟩, terminatedByUser := false,
        runEnabled := true, stopEnabled := false, sendEnabled := false,
        consoleEnabled := false, started := [], extLaunched := [] } =
      { scriptPath := some "a.py", argText := "\"", consoleText := "",
        console := ["> Argument parsing error: No closing quotation"],
        argumentBank := [], config := ⟨[], none, false⟩,
        profiles := [], selectedProfile := "Default",
        interpreterName := "Python", localPython := none,
        proc := ⟨false, [], false⟩, terminatedByUser := false,
        runEnabled := true, stopEnabled := false, sendEnabled := false,
        consoleEnabled := false, started := [], extLaunched := [] } :=
  (run_script_rejections shlexSplit none ⟨none, "", false, "/usr/bin/app"⟩
    _).2.2 "No closing quotation" "a.py" rfl rfl rfl

/-- Lengths of the three terminal messages: the fixed parts differ, so the
messages can never coincide for the same exit code. -/
theorem terminal_msg_lengths (ec : Int) :
    (stoppedMsg ec).length = 38 + (toString ec).length ∧
    (crashedMsg ec).length = 33 + (toString ec).length ∧
    (finishedMsg ec).length = 34 + (toString ec).length := by
  refine ⟨?_, ?_, ?_⟩
  · have h1 : ("> Script stopped by user (exit code ").length = 36 := rfl
    have h2 : (")." : String).length = 2 := rfl
    simp only [stoppedMsg, String.length_append, h1, h2]
    omega
  · have h1 : ("> Script crashed with exit code ").length = 32 := rfl
    have h2 : ("." : String).length = 1 := rfl
    simp only [crashedMsg, String.length_append, h1, h2]
    omega
  · have h1 : ("> Script finished with exit code ").length = 33 := rfl
    have h2 : ("." : String).length = 1 := rfl
    simp only [finishedMsg, String.length_append, h1, h2]
    omega

/-- **C2.** `_process_finished` appends exactly one of three pairwise
distinct terminal messages, selected by `(userStoppedFlag, exitStatus)` —
stopped-by-user when the flag is set, crashed when the status is Crashed
with the flag unset, finished otherwise — each embedding the numeric exit
code, and then transitions to Idle (run enabled; stop and send-input
disabled; a fresh non-running process owned). And for any ready state, a
`run_script` that starts a process followed by `stop_script` and the
process's `finished` notification ends Idle with the stopped-by-user
message last on the console. -/
theorem process_finished_spec (st : AppState) (ec : Int) (crashed : Bool) :
    ((process_finished ec crashed st).console = st.console ++
      [if st.terminatedByUser then stoppedMsg ec
       else if crashed then crashedMsg ec else finishedMsg ec]) ∧
    (stoppedMsg ec ≠ crashedMsg ec ∧ stoppedMsg ec ≠ finishedMsg ec ∧
      crashedMsg ec ≠ finishedMsg ec) ∧
    ((∃ a b, (stoppedMsg ec).data = a ++ (toString ec).data ++ b) ∧
     (∃ a b, (crashedMsg ec).data = a ++ (toString ec).data ++ b) ∧
     (∃ a b, (finishedMsg ec).data = a ++ (toString ec).data ++ b)) ∧
    ((process_finished ec crashed st).runEnabled = true ∧
     (process_finished ec crashed st).stopEnabled = false ∧
     (process_finished ec crashed st).sendEnabled = false ∧
     (process_finished ec crashed st).proc.running = false) ∧
    (∀ (tok : String → Except String (List String)) (popenErr : Option String)
        (sysv : SysEnv) (args : List String) (s : String) (ec2 : Int)
        (crashed2 : Bool),
      st.proc.running = false → optTruthy st.scriptPath = some s →
      tokenizeArgs tok st.argText = .ok args →
      st.config.externalConsole = false →
      (run_script tok popenErr sysv st).proc.running = true ∧
      (stop_script (run_script tok popenErr sysv st)).terminatedByUser = true ∧
      (process_finished ec2 crashed2
          (stop_script (run_script tok popenErr sysv st))).console.getLast? =
        some (stoppedMsg ec2) ∧
      (process_finished ec2 crashed2
          (stop_script (run_script tok popenErr sysv st))).runEnabled = true ∧
      (process_finished ec2 crashed2
          (stop_script (run_script tok popenErr sysv st))).stopEnabled = false ∧
      (process_finished ec2 crashed2
          (stop_script (run_script tok popenErr sysv st))).sendEnabled = false ∧
      (process_finished ec2 crashed2
          (stop_script (run_script tok popenErr sysv st))).proc.running = false) := by
  obtain ⟨l1, l2, l3⟩ := terminal_msg_lengths ec
  refine ⟨?_, ⟨?_, ?_, ?_⟩, ⟨?_, ?_, ?_⟩, ⟨?_, ?_, ?_, ?_⟩, ?_⟩
  · by_cases hu : st.terminatedByUser <;> by_cases hc : crashed <;>
      simp [process_finished, set_running_state, appendConsole, hu, hc]
  · intro h
    have := congrArg String.length h
    omega
  · intro h
    have := congrArg String.length h
    omega
  · intro h
    have := congrArg String.length h
    omega
  · exact ⟨("> Script stopped by user (exit code ").data, (")." : String).data,
      by simp [stoppedMsg]⟩
  · exact ⟨("> Script crashed with exit code ").data, ("." : String).data,
      by simp [crashedMsg]⟩
  · exact ⟨("> Script finished with exit code ").data, ("." : String).data,
      by simp [finishedMsg]⟩
  · simp [process_finished, set_running_state]
  · simp [process_finished, set_running_state]
  · simp [process_finished, set_running_state]
  · simp [process_finished, set_running_state, freshProc]
  · intro tok popenErr sysv args s ec2 crashed2 hr hs htok hext
    have hrun : run_script tok popenErr sysv st =
        set_running_state true
          { recordArguments args st with
              console := ["> Running " ++ basenameStr s,
                "> " ++ String.intercalate " "
                  (((resolve_interpreter sysv (recordArguments args st).config
                      st.profiles st.selectedProfile st.localPython
                      st.interpreterName).1 ::
                    ((resolve_interpreter sysv (recordArguments args st).config
                      st.profiles st.selectedProfile st.localPython
                      st.interpreterName).2 ++ s :: args)).map shlexQuote)],
              proc := ⟨true, [], false⟩,
              started := st.started ++
                [((resolve_interpreter sysv (recordArguments args st).config
                    st.profiles st.selectedProfile st.localPython
                    st.interpreterName).1,
                  (resolve_interpreter sysv (recordArguments args st).config
                    st.profiles st.selectedProfile st.localPython
                    st.interpreterName).2 ++ s :: args,
                  dirnameStr s)],
              terminatedByUser := false } := by
      simp [run_script, hr, hs, htok, appendConsole, recordArguments] at *
      simp [hext, recordArguments]
    rw [hrun]
    simp [set_running_state, stop_script, process_finished, appendConsole,
      scriptProcess_terminate, freshProc]

/-- Witness for C2: a concrete run-stop-finish round ends with the
stopped-by-user message. -/
theorem process_finished_spec_witness :
    (process_finished 137 true
        (stop_script (run_script shlexSplit none ⟨none, "", false, "/usr/bin/app"⟩
          { scriptPath := some "a.py", argText := "", consoleText := "",
            console := [], argumentBank := [], config := ⟨[], none, false⟩,
            profiles := [], selectedProfile := "Default",
            interpreterName := "Python", localPython := none,
            proc := ⟨false, [], false⟩, terminatedByUser := false,
            runEnabled := true, stopEnabled := false, sendEnabled := false,
            consoleEnabled := false, started := [],
            extLaunched := [] }))).console.getLast? = some (stoppedMsg 137) :=
  ((process_finished_spec
      { scriptPath := some "a.py", argText := "", consoleText := "",
        console := [], argumentBank := [], config := ⟨[], none, false⟩,
        profiles := [], selectedProfile := "Default",
        interpreterName := "Python", localPython := none,
        proc := ⟨false, [], false⟩, terminatedByUser := false,
        runEnabled := true, stopEnabled := false, sendEnabled := false,
        consoleEnabled := false, started := [], extLaunched := [] }
      0 false).2.2.2.2 shlexSplit none ⟨none, "", false, "/usr/bin/app"⟩
      [] "a.py" 137 true rfl rfl rfl rfl).2.2.1

/-- **C3.** Interpreter resolution is first-match-wins: a selected profile
with a non-empty command (with its default arguments); else the located
per-project Python interpreter with no extra arguments; else — inside
`_python_exec` for the Python kind — the `SCRIPT_RUNNER_PYTHON` override;
else the configured `fallback_python`; else the platform default per kind
(`"python"` once the process's own executable contributes nothing,
`"bash"`, `"powershell" -ExecutionPolicy Bypass -File`, `"node"`). And in
the claim's scenario — `a.py`, arguments
`--input data.csv --summary report.json`, no profile hit, no local
environment, no override — the started process is the fallback/system
Python (`_python_exec`) applied to `[a.py, --input, data.csv, --summary,
report.json]` in that order. -/
theorem resolve_interpreter_order (sysv : SysEnv) (cfg : WConfig)
    (profiles : List InterpreterProfile) (sel : String)
    (localPython : Option String) :
    (∀ p name, profiles.find? (fun q => q.name = sel) = some p →
      p.command ≠ "" →
      resolve_interpreter sysv cfg profiles sel localPython name =
        (p.command, p.arguments)) ∧
    ((profiles.find? (fun q => q.name = sel)).bind
        (fun p => if p.command = "" then none
          else some (p.command, p.arguments)) = none →
      ((∀ lp, optTruthy localPython = some lp →
        resolve_interpreter sysv cfg profiles sel localPython "Python" =
          (lp, [])) ∧
      (optTruthy localPython = none →
        ∀ e, optTruthy sysv.envOverride = some e →
        resolve_interpreter sysv cfg profiles sel localPython "Python" =
          (e, [])) ∧
      (optTruthy localPython = none → optTruthy sysv.envOverride = none →
        ∀ f, optTruthy cfg.fallbackPython = some f →
        resolve_interpreter sysv cfg profiles sel localPython "Python" =
          (f, [])) ∧
      (optTruthy localPython = none → optTruthy sysv.envOverride = none →
        optTruthy cfg.fallbackPython = none →
        (sysv.baseExec ≠ "" && sysv.baseExecIsFile) = false →
        isPrefixCh "python".data (lowerStr (basenameStr sysv.executable)).data
          = false →
        resolve_interpreter sysv cfg profiles sel localPython "Python" =
          ("python", [])) ∧
      resolve_interpreter sysv cfg profiles sel localPython "Bash" =
        ("bash", []) ∧
      resolve_interpreter sysv cfg profiles sel localPython "PowerShell" =
        ("powershell", ["-ExecutionPolicy", "Bypass", "-File"]) ∧
      resolve_interpreter sysv cfg profiles sel localPython "Node.js" =
        ("node", []))) ∧
    (∀ (tok : String → Except String (List String)) (popenErr : Option String)
        (st : AppState),
      st.proc.running = false →
      st.scriptPath = some "a.py" →
      st.argText = "--input data.csv --summary report.json" →
      tok "--input data.csv --summary report.json" =
        .ok ["--input", "data.csv", "--summary", "report.json"] →
      st.interpreterName = "Python" →
      (st.profiles.find? (fun q => q.name = st.selectedProfile)).bind
        (fun p => if p.command = "" then none
          else some (p.command, p.arguments)) = none →
      st.localPython = none →
      optTruthy sysv.envOverride = none →
      st.config.externalConsole = false →
      (run_script tok popenErr sysv st).started = st.started ++
        [(python_exec sysv st.config,
          ["a.py", "--input", "data.csv", "--summary", "report.json"], "")]) := by
  refine ⟨?_, ?_, ?_⟩
  · intro p name hfind hcmd
    simp [resolve_interpreter, hfind, hcmd]
  · intro hprof
    refine ⟨?_, ?_, ?_, ?_, ?_, ?_, ?_⟩
    · intro lp hlp
      simp [resolve_interpreter, hprof, hlp]
    · intro hlp e he
      simp [resolve_interpreter, hprof, hlp, python_exec, he]
    · intro hlp he f hf
      simp [resolve_interpreter, hprof, hlp, python_exec, he, hf]
    · intro hlp he hf hbase hexe
      simp [resolve_interpreter, hprof, hlp, python_exec, he, hf, hbase, hexe]
      intro h1 h2
      simp [h1, h2] at hbase
    · simp [resolve_interpreter, hprof]
    · simp [resolve_interpreter, hprof]
    · simp [resolve_interpreter, hprof]
  · intro tok popenErr st hr hs hargs htok hint hprof hlocal henv hext
    have hdir : dirnameStr "a.py" = "" := rfl
    have hpe : python_exec sysv (recordArguments
        ["--input", "data.csv", "--summary", "report.json"] st).config =
        python_exec sysv st.config := by
      simp [python_exec, recordArguments]
    have hs2 : optTruthy st.scriptPath = some "a.py" := by
      rw [hs]; rfl
    have htok2 : tokenizeArgs tok st.argText =
        .ok ["--input", "data.csv", "--summary", "report.json"] := by
      simp [tokenizeArgs, hargs, htok]
    have hext2 : (recordArguments
        ["--input", "data.csv", "--summary", "report.json"]
          st).config.externalConsole = false := by
      simp [recordArguments, hext]
    have hl2 : optTruthy (recordArguments
        ["--input", "data.csv", "--summary", "report.json"]
          st).localPython = none := by
      simp [recordArguments, hlocal, optTruthy]
    have hint2 : (recordArguments
        ["--input", "data.csv", "--summary", "report.json"]
          st).interpreterName = "Python" := by
      simp [recordArguments, hint]
    have hprof2 : (((recordArguments
        ["--input", "data.csv", "--summary", "report.json"] st).profiles).find?
          (fun q => q.name = (recordArguments
            ["--input", "data.csv", "--summary", "report.json"]
              st).selectedProfile)).bind
        (fun p => if p.command = "" then none
          else some (p.command, p.arguments)) = none := by
      simpa [recordArguments] using hprof
    have hstart2 : (recordArguments
        ["--input", "data.csv", "--summary", "report.json"]
          st).started = st.started := by
      simp [recordArguments]
    simp [run_script, hr, hs2, htok2, hext2, set_running_state,
      resolve_interpreter, hprof2, hl2, hint2, hpe, hdir, hstart2,
      appendConsole]

/-- Witness for C3: the claim's scenario run with the real POSIX
tokenizer, a configured fallback interpreter and no profile/venv/override
starts `_python_exec`'s choice on `[a.py, --input, data.csv, --summary,
report.json]`. -/
theorem resolve_interpreter_order_witness :
    (run_script shlexSplit none ⟨none, "", false, "/usr/bin/app"⟩
      { scriptPath := some "a.py",
        argText := "--input data.csv --summary report.json",
        consoleText := "", console := [], argumentBank := [],
        config := ⟨[], some "/usr/bin/python3", false⟩, profiles := [],
        selectedProfile := "Default", interpreterName := "Python",
        localPython := none, proc := ⟨false, [], false⟩,
        terminatedByUser := false, runEnabled := true, stopEnabled := false,
        sendEnabled := false, consoleEnabled := false, started := [],
        extLaunched := [] }).started = [] ++
      [(python_exec ⟨none, "", false, "/usr/bin/app"⟩
          ⟨[], some "/usr/bin/python3", false⟩,
        ["a.py", "--input", "data.csv", "--summary", "report.json"], "")] :=
  (resolve_interpreter_order ⟨none, "", false, "/usr/bin/app"⟩
      ⟨[], some "/usr/bin/python3", false⟩ [] "Default" none).2.2
    shlexSplit none _ rfl rfl rfl rfl rfl rfl rfl rfl rfl

end ScriptRunner
